import Mathlib

/-!
Shallow embedding of `src/fitting_tinygp.py` (class `CarbonFitter`).

Modelling conventions:
* observation times are years, modelled as integers (`ℤ`);
* measured values, uncertainties and production rates are modelled as `ℚ`
  (the floats of the source, without rounding);
* the external box model (`ticktack`), the external GP library (`tinygp`)
  and the file loader (`astropy`) are out of scope: the box-model output on
  the annual grid enters as an abstract list `sim`, and the GP negative log
  marginal likelihood as an abstract function `gnll`;
* `-np.inf` results are modelled in `WithBot ℚ`, where `⊥` stands for `-∞`
  and addition saturates at `⊥` exactly as IEEE `-inf + finite = -inf`.
-/

namespace Radiocarbon

/-- Embeds `jnp.arange(start, stop, step)` for a non-zero rational step:
`max 0 ⌈(stop - start)/step⌉` points `start + i*step`. -/
def arangeQ (start stop step : ℚ) : List ℚ :=
  (List.range ((stop - start) / step).ceil.toNat).map (fun i => start + i * step)

/-- Embeds `jnp.linspace(start, stop, num)`: `num` evenly spaced points with the
endpoint included (`num = 1` gives `[start]`, `num = 0` gives `[]`). -/
def linspaceQ (start stop : ℚ) (num : ℕ) : List ℚ :=
  (List.range num).map (fun i => start + i * (stop - start) / ((num : ℚ) - 1))

/-- Embeds `jnp.mean` of a list of rationals (`0` on the empty list). -/
def listMean (l : List ℚ) : ℚ := l.sum / l.length

/-- Embeds `jnp.arange(start, end + 1)` on integer years: the unit-step annual
grid `start, start+1, …, end`. -/
def annualGrid (s e : ℤ) : List ℤ :=
  (List.range (e - s + 1).toNat).map (fun (i : ℕ) => s + (i : ℤ))

/-- Embeds `jnp.in1d(annual, time_data)[:-1]`: membership of each annual-grid
point in the observation times, with the final entry dropped. -/
def alignMask (annual td : List ℤ) : List Bool :=
  (annual.map (fun t => decide (t ∈ td))).dropLast

/-- The state set up by `CarbonFitter.load_data` (the fields the fitting
pipeline reads). -/
structure Fitter where
  time_data : List ℤ
  d14c_data : List ℚ
  d14c_data_error : List ℚ
  start : ℤ
  endTime : ℤ
  resolution : ℕ
  burn_in_time : List ℚ
  time_grid_fine : List ℚ
  time_oversample : ℕ
  offset : ℚ
  annual : List ℤ
  mask : List Bool
deriving DecidableEq, Repr

/-- Embeds `CarbonFitter.load_data`, with the parsed columns passed directly
(the `astropy` table reader is an external collaborator).  The body performs
no validation, mirroring the source; the only failure is the one raised inside
the numeric library itself, `arange` with a zero step. -/
def loadData (timeData : List ℤ) (d14c err : List ℚ) (resolution : ℕ)
    (fine_grid : ℚ) (time_oversample : ℕ) (num_offset : ℕ) :
    Except String Fitter :=
  if fine_grid = 0 then .error "arange with step zero" else
  let s : ℤ := timeData.min?.getD 0
  let e : ℤ := timeData.max?.getD 0
  .ok { time_data := timeData
        d14c_data := d14c
        d14c_data_error := err
        start := s
        endTime := e
        resolution := resolution
        burn_in_time := linspaceQ ((s : ℚ) - 1000) (s : ℚ) resolution
        time_grid_fine := arangeQ (s : ℚ) (e : ℚ) fine_grid
        time_oversample := time_oversample
        offset := listMean (d14c.take num_offset)
        annual := annualGrid s e
        mask := alignMask (annualGrid s e) timeData }

/-- Embeds numpy boolean-mask selection `xs[mask]` (lengths agree in use). -/
def maskSelect : List Bool → List ℚ → List ℚ
  | true :: ms, x :: xs => x :: maskSelect ms xs
  | false :: ms, _ :: xs => maskSelect ms xs
  | _, _ => []

/-- Embeds `CarbonFitter.dc14`: the box-model output `sim` on the annual grid
(one value per annual bin, the external collaborator's contract) is filtered
by the alignment mask and shifted by the baseline offset. -/
def dc14 (F : Fitter) (sim : List ℚ) : List ℚ :=
  (maskSelect F.mask sim).map (fun x => x + F.offset)

/-- One iteration of the adaptive control-point loop in
`CarbonFitter.prepare_function` (linear interpolation branch): compare the
observation time `t` against the last accepted control point. -/
def cpStep (dense gap : ℤ) (acc : List ℤ) (t : ℤ) : List ℤ :=
  let last := acc.getLastD 0
  if t - last ≤ 2 ∧ 0 < t - last then acc ++ [t + dense]
  else if last + gap ≤ t then acc ++ [t]
  else acc

/-- Embeds the control-point construction of `CarbonFitter.prepare_function`
(`use_control_points=True`, `interp="linear"`): start from
`[start-1, start]`, walk `time_data[:-1]` in order through `cpStep`, then
keep only the points `≤ end`. -/
def controlPointsTime (timeData : List ℤ) (dense gap s e : ℤ) : List ℤ :=
  (timeData.dropLast.foldl (cpStep dense gap) [s - 1, s]).filter (fun t => t ≤ e)

/-- The production function selected by `CarbonFitter.prepare_function`,
as a tagged union.  `α` is the type of opaque caller-supplied callables
(`kwargs['f']`).  `defaultFixedSolar` is the fixed-solar fallback taken when
nothing matched (the source also prints a warning there). -/
inductive ProductionChoice (α : Type) where
  | miyakeFixedSolar : ProductionChoice α
  | miyakeFlexibleSolar : ProductionChoice α
  | customF (f : α) : ProductionChoice α
  | interpLinear (controlPoints : List ℤ) : ProductionChoice α
  | interpGP (controlPoints : List ℤ) : ProductionChoice α
  | defaultFixedSolar : ProductionChoice α
deriving DecidableEq, Repr

/-- The keyword arguments of `CarbonFitter.prepare_function`; `none` models an
absent key (each `try/except KeyError` block supplies the default). -/
structure Kwargs (α : Type) where
  custom_function : Option Bool := none
  f : Option (Option α) := none
  use_control_points : Option Bool := none
  interp : Option String := none
  dense_years : Option ℤ := none
  gap_years : Option ℤ := none
  production : Option (Option String) := none
  fit_solar : Option Bool := none
deriving DecidableEq, Repr

/-- Embeds the selection logic of `CarbonFitter.prepare_function`.  Note that
`custom_function` and `f` are read in one `try` block: if either key is
absent both fall back to `False` / `None`. -/
def prepareFunction {α : Type} (F : Fitter) (kw : Kwargs α) : ProductionChoice α :=
  let cf : Bool × Option α :=
    match kw.custom_function, kw.f with
    | some c, some fv => (c, fv)
    | _, _ => (false, none)
  let use_control_points := kw.use_control_points.getD false
  let interp := kw.interp.getD "linear"
  let dense_years := kw.dense_years.getD 3
  let gap_years := kw.gap_years.getD 5
  let production := kw.production.getD none
  let fit_solar := kw.fit_solar.getD false
  let p1 : Option (ProductionChoice α) :=
    if production = some "miyake" then
      if fit_solar then some .miyakeFlexibleSolar else some .miyakeFixedSolar
    else none
  let p2 : Option (ProductionChoice α) :=
    match cf.1, cf.2 with
    | true, some fv => some (.customF fv)
    | _, _ => p1
  let p3 : Option (ProductionChoice α) :=
    if use_control_points then
      if interp = "linear" then
        some (.interpLinear
          (controlPointsTime F.time_data dense_years gap_years F.start F.endTime))
      else if interp = "gp" then
        some (.interpGP F.annual)
      else p2
    else p2
  match p3 with
  | some p => p
  | none => .defaultFixedSolar

/-- The summands of the chi-square expression
`((d14c_data[:-1] - d_14_c) / d14c_data_error[:-1])**2`, element-wise over
lists of equal length (broadcasting never triggers in the source's use). -/
def chi2terms : List ℚ → List ℚ → List ℚ → List ℚ
  | o :: os, e :: es, s :: ss => ((o - s) / e) ^ 2 :: chi2terms os es ss
  | _, _, _ => []

/-- Embeds `CarbonFitter.loss_chi2`: `0.5 * chi2` with
`chi2 = Σ ((d14c_data[:-1] - dc14(params)) / d14c_data_error[:-1])**2`. -/
def lossChi2 (F : Fitter) (sim : List ℚ) : ℚ :=
  (1/2) * (chi2terms F.d14c_data.dropLast F.d14c_data_error.dropLast (dc14 F sim)).sum

/-- Embeds `CarbonFitter.loss_chi2_avg`: the same chi-square, divided by
`k * len(d_14_c)` where `d_14_c = dc14(params)`. -/
def lossChi2Avg (F : Fitter) (sim : List ℚ) (k : ℚ) : ℚ :=
  (1/2) * (chi2terms F.d14c_data.dropLast F.d14c_data_error.dropLast (dc14 F sim)).sum
    / (k * ((dc14 F sim).length : ℚ))

/-- Embeds `CarbonFitter.log_like`: `-0.5 * chi2` over the same terms. -/
def logLike (F : Fitter) (sim : List ℚ) : ℚ :=
  -(1/2) * (chi2terms F.d14c_data.dropLast F.d14c_data_error.dropLast (dc14 F sim)).sum

/-- Embeds `CarbonFitter.log_prior`:
`jnp.sum(jnp.where(params <= 0, -np.inf, 0))`, with `⊥ : WithBot ℚ` playing
the role of `-inf` (addition with a finite value saturates at `⊥`). -/
def logPrior (params : List ℚ) : WithBot ℚ :=
  (params.map (fun p => if p ≤ 0 then (⊥ : WithBot ℚ) else 0)).sum

/-- Embeds `CarbonFitter.log_prob`: `log_prior(params) + log_like(params)`. -/
def logProb (F : Fitter) (sim : List ℚ) (params : List ℚ) : WithBot ℚ :=
  logPrior params + (logLike F sim : ℚ)

/-- Embeds `CarbonFitter.gp_likelihood`: `loss_chi2(params)` plus the GP
negative log marginal likelihood of `params`; the latter is computed by the
external GP library and enters as the abstract function `gnll`. -/
def gpLikelihood (F : Fitter) (sim : List ℚ) (gnll : List ℚ → ℚ)
    (params : List ℚ) : ℚ :=
  lossChi2 F sim + gnll params

/-- Embeds `CarbonFitter.gp_likelihood_avg`: the same sum divided by `k`. -/
def gpLikelihoodAvg (F : Fitter) (sim : List ℚ) (gnll : List ℚ → ℚ)
    (params : List ℚ) (k : ℚ) : ℚ :=
  (lossChi2 F sim + gnll params) / k


/-- A placeholder `Fitter` used as the default of `exceptGetOk`. -/
def dummyF : Fitter :=
  { time_data := [], d14c_data := [], d14c_data_error := [], start := 0, endTime := 0,
    resolution := 0, burn_in_time := [], time_grid_fine := [], time_oversample := 0,
    offset := 0, annual := [], mask := [] }

/-- Extracts the fitter from a successful `loadData` call. -/
def exceptGetOk : Except String Fitter → Fitter → Fitter
  | .ok F, _ => F
  | .error _, d => d

/-- A small concrete dataset: observation years `[100, 101, 103]` with values
`[10, 20, 30]`, uncertainties `[1, 2, 1]`, resolution 5, unit fine-grid step,
oversampling 10 and a 2-point baseline. -/
def exFitter : Fitter :=
  exceptGetOk (loadData [100, 101, 103] [10, 20, 30] [1, 2, 1] 5 1 10 2) dummyF

/-- The observation series `[100, 101, 110, 200]` of the control-point
spacing example, loaded through `loadData`. -/
def cpFitter : Fitter :=
  exceptGetOk (loadData [100, 101, 110, 200] [10, 20, 30, 40] [1, 1, 1, 1] 5 1 10 4) dummyF

/-- The configuration of the control-point spacing example:
`use_control_points=True`, `dense_years=3`, `gap_years=5`, `interp` left to
its default `"linear"`. -/
def cpKwargs : Kwargs ℕ :=
  { use_control_points := some true, dense_years := some 3, gap_years := some 5 }

/-- A configuration supplying control points, a custom function and the
miyake production model all at once. -/
def kwEverything : Kwargs ℕ :=
  { custom_function := some true, f := some (some 7), use_control_points := some true,
    interp := some "linear", production := some (some "miyake"), fit_solar := some false }

/-- A configuration supplying a custom function together with the miyake
production model, with `use_control_points` absent. -/
def kwCustomAndMiyake : Kwargs ℕ :=
  { custom_function := some true, f := some (some 7), production := some (some "miyake") }

/-- The fitter produced by a `loadData` call whose configuration the spec
calls invalid: `resolution = 1 < 2` and `num_offset = 4` exceeding the
2-point series. -/
def noValidFitter : Fitter :=
  exceptGetOk (loadData [100, 101] [10, 20] [1, 1] 1 1 1000 4) dummyF

/-!  Supporting lemmas about the annual grid and the alignment mask. -/

theorem mem_annualGrid {s e t : ℤ} : t ∈ annualGrid s e ↔ s ≤ t ∧ t ≤ e := by
  simp only [annualGrid, List.mem_map, List.mem_range]
  constructor
  · rintro ⟨i, hi, rfl⟩
    omega
  · rintro ⟨h1, h2⟩
    exact ⟨(t - s).toNat, by omega, by omega⟩

theorem nodup_annualGrid (s e : ℤ) : (annualGrid s e).Nodup := by
  refine List.Nodup.map ?_ (List.nodup_range _)
  intro a b h
  simp only [add_right_inj, Nat.cast_inj] at h
  exact h

theorem length_annualGrid (s e : ℤ) : (annualGrid s e).length = (e - s + 1).toNat := by
  simp [annualGrid]

theorem alignMask_length (annual td : List ℤ) :
    (alignMask annual td).length = annual.length - 1 := by
  simp [alignMask]

theorem count_true_mem_map {annual td : List ℤ} (ha : annual.Nodup) (htd : td.Nodup)
    (hsub : ∀ t ∈ td, t ∈ annual) :
    (annual.map (fun t => decide (t ∈ td))).count true = td.length := by
  have h1 : (annual.map (fun t => decide (t ∈ td))).count true
      = annual.countP (fun t => decide (t ∈ td)) := by
    simp only [List.count, List.countP_map]
    congr 1
    funext t
    simp
  rw [h1, List.countP_eq_length_filter]
  have hperm : List.Perm (annual.filter (fun t => decide (t ∈ td))) td := by
    rw [List.perm_ext_iff_of_nodup (ha.filter _) htd]
    intro a
    simp only [List.mem_filter, decide_eq_true_eq]
    exact ⟨fun h => h.2, fun h => ⟨hsub a h, h⟩⟩
  exact hperm.length_eq

theorem getLast?_annualGrid {s e : ℤ} (h : s ≤ e) :
    (annualGrid s e).getLast? = some e := by
  have hn1 : 1 ≤ (e - s + 1).toNat := by omega
  have hne : List.range (e - s + 1).toNat ≠ [] := by
    intro h0
    have := congrArg List.length h0
    simp at this
    omega
  rw [annualGrid, List.getLast?_map, List.getLast?_eq_getLast _ hne]
  have : (List.range (e - s + 1).toNat).getLast hne = (e - s + 1).toNat - 1 := by
    rw [List.getLast_eq_getElem, List.getElem_range]
    simp
  rw [this]
  simp only [Option.map_some']
  congr 1
  omega

theorem alignMask_count {td : List ℤ} {s e : ℤ} (htd : td.Nodup)
    (hbound : ∀ t ∈ td, s ≤ t ∧ t ≤ e) (he : e ∈ td) :
    (alignMask (annualGrid s e) td).count true = td.length - 1 := by
  have hse : s ≤ e := (hbound e he).1
  have hmem : e ∈ annualGrid s e := mem_annualGrid.mpr ⟨hse, le_refl e⟩
  have hanne : annualGrid s e ≠ [] := List.ne_nil_of_mem hmem
  have hfne : (annualGrid s e).map (fun t => decide (t ∈ td)) ≠ [] := by
    intro h0
    exact hanne (List.map_eq_nil_iff.mp h0)
  have hlast : ((annualGrid s e).map (fun t => decide (t ∈ td))).getLast hfne = true := by
    have h1 : ((annualGrid s e).map (fun t => decide (t ∈ td))).getLast? =
        some (decide (e ∈ td)) := by
      rw [List.getLast?_map, getLast?_annualGrid hse]
      rfl
    rw [List.getLast?_eq_getLast _ hfne] at h1
    simpa [he] using Option.some.inj h1
  have hcnt : ((annualGrid s e).map (fun t => decide (t ∈ td))).count true = td.length :=
    count_true_mem_map (nodup_annualGrid s e) htd (fun t ht => mem_annualGrid.mpr (hbound t ht))
  have hsplit := List.dropLast_append_getLast hfne
  have hkey : td.length = (alignMask (annualGrid s e) td).count true + 1 := by
    rw [← hcnt]
    conv_lhs => rw [← hsplit]
    rw [List.count_append, hlast]
    simp [alignMask]
  have htdlen : 1 ≤ td.length := List.length_pos.mpr (List.ne_nil_of_mem he)
  omega

theorem minMax_spec (td : List ℤ) (hne : td ≠ []) :
    (∀ t ∈ td, td.min?.getD 0 ≤ t ∧ t ≤ td.max?.getD 0) ∧ td.max?.getD 0 ∈ td := by
  obtain ⟨M, hM⟩ := WithBot.ne_bot_iff_exists.mp (List.maximum_ne_bot_of_ne_nil (l := td) hne)
  obtain ⟨m, hm⟩ := WithTop.ne_top_iff_exists.mp (List.minimum_ne_top_of_ne_nil (l := td) hne)
  have hmax : td.max?.getD 0 = M := by
    rw [List.getD_max?_eq_unbot'_maximum, ← hM, WithBot.unbot'_coe]
  have hmin : td.min?.getD 0 = m := by
    rw [List.getD_min?_eq_untop'_minimum, ← hm, WithTop.untop'_coe]
  refine ⟨fun t ht => ⟨?_, ?_⟩, ?_⟩
  · rw [hmin]
    have := List.minimum_le_of_mem' ht
    rw [← hm] at this
    exact_mod_cast this
  · rw [hmax]
    have := List.le_maximum_of_mem' ht
    rw [← hM] at this
    exact_mod_cast this
  · rw [hmax]
    exact List.maximum_mem hM.symm

theorem maskSelect_length :
    ∀ (mask : List Bool) (xs : List ℚ), xs.length = mask.length →
      (maskSelect mask xs).length = mask.count true := by
  intro mask
  induction mask with
  | nil =>
    intro xs h
    cases xs with
    | nil => simp [maskSelect]
    | cons x xs' => simp at h
  | cons b ms ih =>
    intro xs h
    cases xs with
    | nil => simp at h
    | cons x xs' =>
      have h' : xs'.length = ms.length := by simpa using h
      cases b with
      | false => simpa [maskSelect, List.count_cons] using ih xs' h'
      | true => simpa [maskSelect, List.count_cons] using ih xs' h'

theorem dc14_length (F : Fitter) (sim : List ℚ) (hsim : sim.length = F.mask.length) :
    (dc14 F sim).length = F.mask.count true := by
  rw [dc14, List.length_map]
  exact maskSelect_length F.mask sim hsim

theorem getD_dropLast (l : List ℚ) (i : ℕ) (h : i < l.length - 1) (d : ℚ) :
    l.dropLast.getD i d = l.getD i d := by
  have h1 : i < l.dropLast.length := by rw [List.length_dropLast]; omega
  have h2 : i < l.length := by omega
  rw [List.getD_eq_getElem _ _ h1, List.getD_eq_getElem _ _ h2, List.getElem_dropLast]

theorem chi2terms_sum :
    ∀ (as bs cs : List ℚ), bs.length = as.length → cs.length = as.length →
      (chi2terms as bs cs).sum =
        ∑ i ∈ Finset.range as.length,
          ((as.getD i 0 - cs.getD i 0) / bs.getD i 0) ^ 2 := by
  intro as
  induction as with
  | nil =>
    intro bs cs _ _
    simp [chi2terms]
  | cons a as ih =>
    intro bs cs h1 h2
    cases bs with
    | nil => simp at h1
    | cons b bs' =>
      cases cs with
      | nil => simp at h2
      | cons c cs' =>
        have h1' : bs'.length = as.length := by simpa using h1
        have h2' : cs'.length = as.length := by simpa using h2
        simp only [chi2terms, List.sum_cons, List.length_cons]
        rw [ih bs' cs' h1' h2', Finset.sum_range_succ']
        simp only [List.getD_cons_succ, List.getD_cons_zero]
        exact (add_comm _ _)

theorem loadData_ok_fields {td : List ℤ} {d14c err : List ℚ} {res : ℕ} {fg : ℚ}
    {tos noff : ℕ} {F : Fitter}
    (hload : loadData td d14c err res fg tos noff = .ok F) :
    F.time_data = td ∧ F.d14c_data = d14c ∧ F.d14c_data_error = err ∧
    F.annual = annualGrid (td.min?.getD 0) (td.max?.getD 0) ∧
    F.mask = alignMask (annualGrid (td.min?.getD 0) (td.max?.getD 0)) td := by
  rw [loadData] at hload
  split at hload
  · exact absurd hload (by simp)
  · injection hload with h
    subst h
    exact ⟨rfl, rfl, rfl, rfl, rfl⟩

theorem mask_count_of_sorted (td : List ℤ) (hsorted : td.Sorted (· < ·)) (hne : td ≠ []) :
    (alignMask (annualGrid (td.min?.getD 0) (td.max?.getD 0)) td).count true
      = td.length - 1 := by
  obtain ⟨hbound, hemem⟩ := minMax_spec td hne
  exact alignMask_count hsorted.nodup hbound hemem


/-!  Claim theorems. -/

/-- C1: for every observation series accepted by `load_data` (strictly
increasing integer years) and every box-model output with one value per
annual bin, the forward simulation `dc14` returns a curve whose length
equals the number of `true` entries of the alignment mask, which equals the
length of the observation series minus one. -/
theorem dc14_output_length (td : List ℤ) (d14c err : List ℚ) (res : ℕ) (fg : ℚ)
    (tos noff : ℕ) (F : Fitter) (sim : List ℚ)
    (hload : loadData td d14c err res fg tos noff = .ok F)
    (hsorted : td.Sorted (· < ·)) (hne : td ≠ [])
    (hsim : sim.length = F.mask.length) :
    (dc14 F sim).length = F.mask.count true ∧ F.mask.count true = td.length - 1 := by
  obtain ⟨-, -, -, -, hmask⟩ := loadData_ok_fields hload
  exact ⟨dc14_length F sim hsim, by rw [hmask]; exact mask_count_of_sorted td hsorted hne⟩

/-- Witness for C1 on the concrete dataset `[100, 101, 103]`. -/
theorem dc14_output_length_witness :
    (dc14 exFitter [5, 6, 7]).length = exFitter.mask.count true ∧
    exFitter.mask.count true = 2 :=
  dc14_output_length [100, 101, 103] [10, 20, 30] [1, 2, 1] 5 1 10 2 exFitter [5, 6, 7]
    rfl (by decide) (by decide) (by decide)

/-- C2 counterexample: with observation times `[100, 101, 110, 200]`,
`dense_years = 3`, `gap_years = 5`, start 100 and end 200, the code does
NOT produce the spec's expected control points `[99, 100, 104, 110, 200]`
(the loop walks `time_data[:-1]`, so the last observation time 200 is never
visited), both at the level of the spacing rule and through
`prepare_function` itself. -/
theorem controlPoints_example_ne_spec :
    controlPointsTime [100, 101, 110, 200] 3 5 100 200 ≠ [99, 100, 104, 110, 200] ∧
    prepareFunction cpFitter cpKwargs ≠ .interpLinear [99, 100, 104, 110, 200] := by
  decide

/-- C2 amended: the adaptive spacing rule walks all observation times
except the last, so for observation times `[100, 101, 110, 200]` with
`dense_years = 3` and `gap_years = 5` it produces exactly
`[99, 100, 104, 110]`, and `prepare_function` with
`use_control_points=True` and the default linear interpolation stores
exactly these control points. -/
theorem controlPoints_example_eq :
    controlPointsTime [100, 101, 110, 200] 3 5 100 200 = [99, 100, 104, 110] ∧
    prepareFunction cpFitter cpKwargs = .interpLinear [99, 100, 104, 110] := by
  decide

/-- C3: for every observation series of strictly increasing integer years
processed by `load_data`, the alignment mask has length `len(annual) - 1`
and its number of `true` entries is `len(observation series) - 1`. -/
theorem loadData_mask_invariants (td : List ℤ) (d14c err : List ℚ) (res : ℕ) (fg : ℚ)
    (tos noff : ℕ) (F : Fitter)
    (hload : loadData td d14c err res fg tos noff = .ok F)
    (hsorted : td.Sorted (· < ·)) (hne : td ≠ []) :
    F.mask.length = F.annual.length - 1 ∧ F.mask.count true = td.length - 1 := by
  obtain ⟨-, -, -, hannual, hmask⟩ := loadData_ok_fields hload
  constructor
  · rw [hannual, hmask]
    exact alignMask_length _ _
  · rw [hmask]
    exact mask_count_of_sorted td hsorted hne

/-- Witness for C3 on the concrete dataset `[100, 101, 103]`. -/
theorem loadData_mask_invariants_witness :
    exFitter.mask.length = exFitter.annual.length - 1 ∧ exFitter.mask.count true = 2 :=
  loadData_mask_invariants [100, 101, 103] [10, 20, 30] [1, 2, 1] 5 1 10 2 exFitter
    rfl (by decide) (by decide)

/-- C4: for a parameter vector of any length, `log_prior` returns exactly 0
when every component is strictly positive, and `-∞` (here `⊥`) when some
component is `≤ 0`. -/
theorem logPrior_flat (params : List ℚ) :
    ((∀ p ∈ params, 0 < p) → logPrior params = 0) ∧
    ((∃ p ∈ params, p ≤ 0) → logPrior params = ⊥) := by
  induction params with
  | nil =>
    refine ⟨fun _ => rfl, ?_⟩
    rintro ⟨p, hp, -⟩
    cases hp
  | cons a l ih =>
    constructor
    · intro h
      have ha : ¬a ≤ 0 := not_le.mpr (h a (List.mem_cons_self a l))
      have hrest := ih.1 fun p hp => h p (List.mem_cons_of_mem a hp)
      simp only [logPrior, List.map_cons, List.sum_cons, if_neg ha] at *
      rw [hrest, add_zero]
    · rintro ⟨p, hp, hple⟩
      rcases List.mem_cons.mp hp with rfl | hmem
      · simp only [logPrior, List.map_cons, List.sum_cons, if_pos hple]
        exact WithBot.bot_add _
      · have hrest := ih.2 ⟨p, hmem, hple⟩
        simp only [logPrior, List.map_cons, List.sum_cons] at *
        rw [hrest, WithBot.add_bot]

/-- Witness for C4 on the vectors `[1, 2]` and `[1, -1]`. -/
theorem logPrior_flat_witness :
    logPrior [1, 2] = 0 ∧ logPrior [1, -1] = ⊥ := by
  constructor
  · refine (logPrior_flat [1, 2]).1 ?_
    intro p hp
    rcases List.mem_cons.mp hp with rfl | hp
    · norm_num
    · rcases List.mem_cons.mp hp with rfl | hp
      · norm_num
      · cases hp
  · exact (logPrior_flat [1, -1]).2 ⟨-1, by simp, by norm_num⟩

/-- C5: `loss_chi2` equals one half of the sum, over all observation points
except the last, of the squared quotients
`(observed - simulated) / uncertainty`, with observed values and
uncertainties truncated by dropping their last entry. -/
theorem lossChi2_eq_spec (F : Fitter) (sim : List ℚ)
    (herr : F.d14c_data_error.length = F.d14c_data.length)
    (hsim : (dc14 F sim).length = F.d14c_data.length - 1) :
    lossChi2 F sim = (1/2) * ∑ i ∈ Finset.range (F.d14c_data.length - 1),
      ((F.d14c_data.getD i 0 - (dc14 F sim).getD i 0)
        / F.d14c_data_error.getD i 0) ^ 2 := by
  rw [lossChi2,
    chi2terms_sum _ _ _ (by simp [herr]) (by simp [hsim]),
    List.length_dropLast]
  congr 1
  refine Finset.sum_congr rfl fun i hi => ?_
  rw [Finset.mem_range] at hi
  rw [getD_dropLast _ _ (by omega) _, getD_dropLast _ _ (by omega) _]

/-- Witness for C5 on the concrete dataset `[100, 101, 103]`. -/
theorem lossChi2_eq_spec_witness :
    lossChi2 exFitter [5, 6, 7] =
      (1/2) * ∑ i ∈ Finset.range 2,
        ((exFitter.d14c_data.getD i 0 - (dc14 exFitter [5, 6, 7]).getD i 0)
          / exFitter.d14c_data_error.getD i 0) ^ 2 :=
  lossChi2_eq_spec exFitter [5, 6, 7] (by decide) (by decide)

/-- C6: for every `k > 0`, `loss_chi2_avg(params, k)` equals
`loss_chi2(params) / (k * n)` with `n` the number of observation points
minus one (the code divides by the length of the simulated curve, which
under the mask design equals `n`). -/
theorem lossChi2Avg_eq (F : Fitter) (sim : List ℚ) (k : ℚ) (hk : 0 < k)
    (hn : (dc14 F sim).length = F.d14c_data.length - 1) :
    lossChi2Avg F sim k
      = lossChi2 F sim / (k * ((F.d14c_data.length - 1 : ℕ) : ℚ)) := by
  rw [lossChi2Avg, lossChi2, hn]

/-- Witness for C6 on the concrete dataset `[100, 101, 103]` with `k = 1`. -/
theorem lossChi2Avg_eq_witness :
    (0 : ℚ) < 1 ∧
    lossChi2Avg exFitter [5, 6, 7] 1
      = lossChi2 exFitter [5, 6, 7] / (1 * ((exFitter.d14c_data.length - 1 : ℕ) : ℚ)) :=
  ⟨by norm_num, lossChi2Avg_eq exFitter [5, 6, 7] 1 (by norm_num) (by decide)⟩

/-- C7: `log_like` is the negation of `loss_chi2`, and `log_prob` is
`log_prior + log_like` (in `WithBot ℚ`, where the prior may be `-∞`). -/
theorem logLike_logProb_eq (F : Fitter) (sim : List ℚ) (params : List ℚ) :
    logLike F sim = -(lossChi2 F sim) ∧
    logProb F sim params = logPrior params + ((logLike F sim : ℚ) : WithBot ℚ) := by
  constructor
  · rw [logLike, lossChi2]
    ring
  · rfl

/-- C8 counterexample: `load_data` with `resolution = 1 < 2` and
`num_offset = 4` larger than the 2-point series succeeds instead of raising
a configuration error. -/
theorem loadData_accepts_invalid_config :
    (loadData [100, 101] [10, 20] [1, 1] 1 1 1000 4).isOk = true := by
  decide

/-- C8 amended: `load_data` performs no validation: `resolution < 2` and a
`num_offset` exceeding the series length are silently accepted (the offset
then averages the entire series, giving 15 here); only a zero fine-grid
step fails, inside the numeric grid routine, not as a descriptive
configuration error. -/
theorem loadData_silent_defaults :
    loadData [100, 101] [10, 20] [1, 1] 1 1 1000 4 = .ok noValidFitter ∧
    noValidFitter.resolution = 1 ∧
    noValidFitter.offset = 15 ∧
    (loadData [100, 101] [10, 20] [1, 1] 1 0 1000 4).isOk = false := by
  refine ⟨rfl, rfl, ?_, rfl⟩
  show listMean [10, 20] = 15
  norm_num [listMean]

/-- C9: `gp_likelihood` equals `loss_chi2` plus the GP negative log
marginal likelihood of the parameters, and for every `k > 0` the averaged
variant equals that sum divided by `k`. -/
theorem gpLikelihood_eq (F : Fitter) (sim : List ℚ) (gnll : List ℚ → ℚ)
    (params : List ℚ) (k : ℚ) (hk : 0 < k) :
    gpLikelihood F sim gnll params = lossChi2 F sim + gnll params ∧
    gpLikelihoodAvg F sim gnll params k = gpLikelihood F sim gnll params / k :=
  ⟨rfl, rfl⟩

/-- Witness for C9 with a constant GP penalty and `k = 1`. -/
theorem gpLikelihood_eq_witness :
    (0 : ℚ) < 1 ∧
    gpLikelihood exFitter [5, 6, 7] (fun _ => 3) [1]
      = lossChi2 exFitter [5, 6, 7] + 3 ∧
    gpLikelihoodAvg exFitter [5, 6, 7] (fun _ => 3) [1] 1
      = gpLikelihood exFitter [5, 6, 7] (fun _ => 3) [1] / 1 :=
  ⟨by norm_num, gpLikelihood_eq exFitter [5, 6, 7] (fun _ => 3) [1] 1 (by norm_num)⟩

/-- C10: `prepare_function` selects exactly one production function; when
`use_control_points` is true and the (possibly defaulted) interpolation is
a recognized one, the interpolation variant wins regardless of
`custom_function` or `production`; when `use_control_points` does not
resolve to true, a supplied custom function (`custom_function=True` with
non-`None` `f`) wins even when `production="miyake"` is also given. -/
theorem prepareFunction_selection {α : Type} (F : Fitter) (kw : Kwargs α) :
    (∃! p, prepareFunction F kw = p) ∧
    (kw.use_control_points = some true → kw.interp.getD "linear" = "linear" →
      prepareFunction F kw = .interpLinear (controlPointsTime F.time_data
        (kw.dense_years.getD 3) (kw.gap_years.getD 5) F.start F.endTime)) ∧
    (kw.use_control_points = some true → kw.interp.getD "linear" = "gp" →
      prepareFunction F kw = .interpGP F.annual) ∧
    (∀ fv : α, kw.use_control_points.getD false = false → kw.custom_function = some true →
      kw.f = some (some fv) → prepareFunction F kw = .customF fv) := by
  refine ⟨⟨prepareFunction F kw, rfl, fun y hy => hy.symm⟩, ?_, ?_, ?_⟩
  · intro h1 h2
    simp [prepareFunction, h1, h2]
  · intro h1 h2
    simp [prepareFunction, h1, h2]
  · intro fv h1 h2 h3
    simp [prepareFunction, h1, h2, h3]

/-- Witness for C10: with everything supplied at once the linear
interpolation variant wins, and without `use_control_points` the custom
function beats `production="miyake"`. -/
theorem prepareFunction_selection_witness :
    prepareFunction cpFitter kwEverything
      = .interpLinear (controlPointsTime cpFitter.time_data 3 5
          cpFitter.start cpFitter.endTime) ∧
    prepareFunction cpFitter kwCustomAndMiyake = .customF 7 :=
  ⟨(prepareFunction_selection cpFitter kwEverything).2.1 rfl rfl,
   (prepareFunction_selection cpFitter kwCustomAndMiyake).2.2.2 7 rfl rfl rfl⟩

end Radiocarbon
